import Mathlib

/-!
Verification of the HomeDashSensor presence-detection and display-fade logic.

The definitions below are a shallow embedding of the Python sources:
* `src/_old/proximity.py` — `ProximityDetector` (presence state machine),
* `src/_old/display.py` — `DisplayController` fade worker and write path,
* `src/proximity_display_control.py` — `LightSensorController.calculate_adaptive_brightness`
  and `DisplayController.fade_to`.

Machine integers are modelled as `Int`/`Nat`; Python floats are modelled as
exact rationals (`ℚ`); wall-clock time is an explicit `now : ℚ` parameter;
Python `int(...)` truncation is `qtrunc`, Python `round(...)` (half-to-even)
is `pyRound`; a fallible brightness write is driven by an explicit success
oracle `ℕ → Bool`; a Python `ZeroDivisionError` makes the model return `none`.
-/

/-- Truncation toward zero, Python `int(...)` applied to a float. -/
def qtrunc (q : ℚ) : ℤ :=
  if 0 ≤ q then ⌊q⌋ else ⌈q⌉

/-- Python 3 `round(...)`: round half to even, otherwise to nearest. -/
def pyRound (q : ℚ) : ℤ :=
  if q - (⌊q⌋ : ℚ) = 1/2 then (if ⌊q⌋ % 2 = 0 then ⌊q⌋ else ⌊q⌋ + 1)
  else round q

/-- A proximity sample, `sensors.ProximityReading` (timestamp elided;
the processing time is passed explicitly to `process_reading`). -/
structure ProximityReading where
  distance_mm : ℤ
  zones_in_range : ℤ
  valid : Bool
deriving DecidableEq

/-- `config.DetectionConfig` (defaults: 400, 6, 3, 10). -/
structure DetectionConfig where
  threshold_mm : ℤ
  detection_zones : ℤ
  consecutive_required : ℕ
  no_presence_required : ℕ
deriving DecidableEq

/-- `proximity.DetectionState` together with the detector-level attributes
`_last_valid_distance` and `_detection_start_time` of `ProximityDetector`. -/
structure DetectionState where
  human_present : Bool
  consecutive_detections : ℕ
  consecutive_non_detections : ℕ
  last_detection_time : ℚ
  detection_history : List Bool
  last_valid_distance : Option ℤ
  detection_start_time : Option ℚ
deriving DecidableEq

/-- The freshly constructed detector state (`DetectionState()` defaults). -/
def initDetectionState : DetectionState :=
  { human_present := false
    consecutive_detections := 0
    consecutive_non_detections := 0
    last_detection_time := 0
    detection_history := []
    last_valid_distance := none
    detection_start_time := none }

/-- `DetectionState.add_detection`: append, keep the last 20 entries. -/
def addDetection (h : List Bool) (d : Bool) : List Bool :=
  let h2 := h ++ [d]
  if 20 < h2.length then h2.drop 1 else h2

/-- `ProximityDetector._validate_movement`. -/
def validate_movement (cfg : DetectionConfig) (r : ProximityReading)
    (s : DetectionState) : Bool :=
  match s.last_valid_distance with
  | none => true
  | some prev =>
    if 300 < |r.distance_mm - prev| then false
    else if r.distance_mm ≤ cfg.threshold_mm ∧
        r.zones_in_range < max 1 (cfg.detection_zones - 1) then false
    else true

/-- `ProximityDetector._is_detection_criteria_met`. -/
def is_detection_criteria_met (cfg : DetectionConfig) (r : ProximityReading)
    (s : DetectionState) : Bool :=
  decide (r.distance_mm ≤ cfg.threshold_mm) &&
  decide (cfg.detection_zones ≤ r.zones_in_range) &&
  validate_movement cfg r s

/-- `ProximityDetector._should_trigger_detection`. -/
def should_trigger_detection (cfg : DetectionConfig) (s : DetectionState) : Bool :=
  decide (cfg.consecutive_required ≤ s.consecutive_detections)

/-- `ProximityDetector._should_trigger_non_detection` at wall-clock time `now`. -/
def should_trigger_non_detection (cfg : DetectionConfig) (now : ℚ)
    (s : DetectionState) : Bool :=
  if s.consecutive_non_detections < cfg.no_presence_required then false
  else
    match s.detection_start_time with
    | none => true
    | some t0 => decide ((2 : ℚ) ≤ now - t0)

/-- `ProximityDetector._handle_invalid_reading`. -/
def handle_invalid_reading (cfg : DetectionConfig) (s : DetectionState) :
    DetectionState :=
  let s1 := { s with consecutive_detections := 0
                     consecutive_non_detections := s.consecutive_non_detections + 1 }
  if s1.human_present = true ∧
      cfg.no_presence_required * 2 ≤ s1.consecutive_non_detections then
    { s1 with human_present := false }
  else s1

/-- Counter update of `process_reading` (the `if detected:` block). -/
def detUpdate (now : ℚ) (s : DetectionState) (detected : Bool) : DetectionState :=
  if detected then
    { s with consecutive_detections := s.consecutive_detections + 1
             consecutive_non_detections := 0
             detection_start_time :=
               if s.human_present = false then some now else s.detection_start_time }
  else
    { s with consecutive_detections := 0
             consecutive_non_detections := s.consecutive_non_detections + 1 }

/-- Presence transition of `process_reading` (the `if`/`elif` block). -/
def transUpdate (cfg : DetectionConfig) (now : ℚ) (s : DetectionState) :
    DetectionState :=
  if s.human_present = false ∧ should_trigger_detection cfg s = true then
    { s with human_present := true, last_detection_time := now }
  else if s.human_present = true ∧ should_trigger_non_detection cfg now s = true then
    { s with human_present := false }
  else s

/-- Body of `process_reading` for a valid reading. -/
def process_valid (cfg : DetectionConfig) (r : ProximityReading) (now : ℚ)
    (s : DetectionState) : DetectionState :=
  let detected := is_detection_criteria_met cfg r s
  let s1 := { s with detection_history := addDetection s.detection_history detected }
  let s2 := detUpdate now s1 detected
  let s3 := transUpdate cfg now s2
  { s3 with last_valid_distance := some r.distance_mm }

/-- `ProximityDetector.process_reading` at wall-clock time `now`. -/
def process_reading (cfg : DetectionConfig) (r? : Option ProximityReading)
    (now : ℚ) (s : DetectionState) : DetectionState :=
  match r? with
  | none => handle_invalid_reading cfg s
  | some r =>
    if r.valid = true then process_valid cfg r now s
    else handle_invalid_reading cfg s

/-- Fold a timestamped input sequence through the detector from the initial state. -/
def runDetector (cfg : DetectionConfig)
    (inputs : List (Option ProximityReading × ℚ)) : DetectionState :=
  inputs.foldl (fun s p => process_reading cfg p.1 p.2 s) initDetectionState

/-- The dwell guard of `_should_trigger_non_detection` as a proposition:
skipped when `_detection_start_time` was never set. -/
def dwellOk (s : DetectionState) (now : ℚ) : Prop :=
  match s.detection_start_time with
  | none => True
  | some t0 => (2 : ℚ) ≤ now - t0

/-- Default detection configuration (threshold 400mm, 6 zones, 3, 10). -/
def defaultDetCfg : DetectionConfig :=
  { threshold_mm := 400, detection_zones := 6
    consecutive_required := 3, no_presence_required := 10 }

/-- Light-sensor configuration slice used by
`LightSensorController.calculate_adaptive_brightness` (defaults: enabled,
min 0, thresholds 10.0 / 500.0). -/
structure LightConfig where
  adaptive_brightness_enabled : Bool
  min_brightness : ℤ
  light_threshold_low : ℚ
  light_threshold_high : ℚ
deriving DecidableEq

/-- `LightSensorController.calculate_adaptive_brightness` from
`proximity_display_control.py`. -/
def calculate_adaptive_brightness (cfg : LightConfig) (lux : ℚ) (maxB : ℤ) : ℤ :=
  if cfg.adaptive_brightness_enabled = false then maxB
  else
    let low := cfg.light_threshold_low
    let high := cfg.light_threshold_high
    let b :=
      if lux ≤ low then cfg.min_brightness
      else if high ≤ lux then maxB
      else qtrunc ((cfg.min_brightness : ℚ) +
        (lux - low) / (high - low) * ((maxB : ℚ) - (cfg.min_brightness : ℚ)))
    max cfg.min_brightness (min b maxB)

/-- The default light configuration of `config.py`. -/
def defaultLightCfg : LightConfig :=
  { adaptive_brightness_enabled := true, min_brightness := 0
    light_threshold_low := 10, light_threshold_high := 500 }

/-- The easing dispatch of `DisplayController.fade_to` in
`proximity_display_control.py` (keyed on the `fade_easing` string; an
unrecognised value falls back to the enhanced cubic ease-in-out). -/
def easeScript (e : String) (t : ℚ) : ℚ :=
  if e = "quintic" then
    (if t < 1/2 then 16 * t^5 else 1 - (-2*t + 2)^5 / 2)
  else if e = "ease_in_out" then
    (if t < 1/2 then 4 * t^3 else 1 - (-2*t + 2)^3 / 2)
  else if e = "linear" then t
  else
    (if t < 1/2 then 4 * t^3 else 1 - (-2*t + 2)^3 / 2)

/-- `DisplayController._apply_easing` of `src/_old/display.py`
(an unrecognised value falls back to linear). -/
def easeOld (e : String) (t : ℚ) : ℚ :=
  if e = "linear" then t
  else if e = "ease_in_out" then t * t * (3 - 2*t)
  else if e = "quintic" then t * t * t * (t * (t * 6 - 15) + 10)
  else t

/-- `max(0, min(value, max_brightness))`, the clamp of
`DisplayController.set_brightness` in `proximity_display_control.py`. -/
def clamp0 (maxB v : ℤ) : ℤ := max 0 (min v maxB)

/-- Accumulator of the `fade_to` loop: tracked brightness, the
`last_brightness` local, the index into the write-success oracle, and the
values written to the brightness channel so far. -/
structure FadeAcc where
  cur : ℤ
  lastB : ℤ
  widx : ℕ
  writes : List ℤ
deriving DecidableEq

/-- One proposed step value of `fade_to`:
`round(start + (target - start) * eased_t)` at `t = i / steps`. -/
def fadeStep (easing : String) (steps : ℤ) (start target : ℤ) (i : ℕ) : ℤ :=
  pyRound ((start : ℚ) +
    ((target : ℚ) - (start : ℚ)) * easeScript easing ((i : ℚ) / (steps : ℚ)))

/-- One iteration of the `fade_to` loop: write only when the rounded value
changed; `set_brightness` clamps to `[0, max_brightness]` and advances
`current_brightness` only when the write succeeds, while `last_brightness`
is advanced to the unclamped proposed value unconditionally. -/
def fadeIter (oracle : ℕ → Bool) (easing : String) (maxB steps start target : ℤ)
    (acc : FadeAcc) (i : ℕ) : FadeAcc :=
  let b := fadeStep easing steps start target i
  if b = acc.lastB then acc
  else
    { cur := if oracle acc.widx then clamp0 maxB b else acc.cur
      lastB := b
      widx := acc.widx + 1
      writes := acc.writes ++ [clamp0 maxB b] }

/-- The step-count recalculation of `fade_to`: when `duration / steps` is
below `(1000/60)/1000/10 = 1/600` s, `steps = int(duration / min_step_delay)`.
The embedding computes `duration / (1/600)` in exact rationals; Python's
float arithmetic can make the truncated step count differ by one, which no
property proved here depends on (only whether the loop range is empty or
which index is last). -/
def recalcSteps (duration : ℚ) (steps0 : ℤ) : ℤ :=
  if duration / (steps0 : ℚ) < 1/600 then qtrunc (duration * 600) else steps0

/-- The `for i in range(steps + 1)` loop of `fade_to`, folded from the
initial accumulator (`last_brightness = start`, nothing written yet). -/
def fadeLoop (oracle : ℕ → Bool) (easing : String) (maxB n start target : ℤ) :
    FadeAcc :=
  (List.range ((n + 1).toNat)).foldl (fadeIter oracle easing maxB n start target)
    { cur := start, lastB := start, widx := 0, writes := [] }

/-- `DisplayController.fade_to` of `proximity_display_control.py` as a pure
function: returns the final `current_brightness` and the write trace, or
`none` when Python would raise `ZeroDivisionError` (a step count of 0). -/
def fadeTo (easing : String) (cfgSteps : ℤ) (oracle : ℕ → Bool)
    (maxB current0 target0 : ℤ) (duration : ℚ) (stepsArg : Option ℤ) :
    Option (ℤ × List ℤ) :=
  if current0 = clamp0 maxB target0 then some (current0, [])
  else if stepsArg.getD cfgSteps = 0 then none
  else if recalcSteps duration (stepsArg.getD cfgSteps) = 0 then none
  else
    some ((fadeLoop oracle easing maxB (recalcSteps duration (stepsArg.getD cfgSteps))
        current0 (clamp0 maxB target0)).cur,
      (fadeLoop oracle easing maxB (recalcSteps duration (stepsArg.getD cfgSteps))
        current0 (clamp0 maxB target0)).writes)

/-- `DisplayController._write_brightness` of `src/_old/display.py` applied at
one fade step: given the tracked brightness `cur`, the proposed step value `b`
and the write outcome `ok`, returns the new tracked brightness and the value
actually written to the channel (the value is clamped to
`[min_brightness, max_brightness]` before the write, but on success the
tracked brightness is advanced to the unclamped `b`). -/
def writeStepOld (minB maxB cur b : ℤ) (ok : Bool) : ℤ × ℤ :=
  let w := max minB (min maxB b)
  (if ok then b else cur, w)

/-- Accumulator of the `_fade_worker` loop of `src/_old/display.py`. -/
structure OldAcc where
  cur : ℤ
  widx : ℕ
  writes : List ℤ
deriving DecidableEq

/-- One proposed step value of `_fade_worker`: exactly `target` on the final
step, otherwise `int(start + diff * eased_progress)`. -/
def oldStep (easing : String) (steps : ℕ) (start target : ℤ) (i : ℕ) : ℤ :=
  if i = steps then target
  else qtrunc ((start : ℚ) +
    ((target : ℚ) - (start : ℚ)) * easeOld easing ((i : ℚ) / (steps : ℚ)))

/-- `DisplayController._fade_worker` of `src/_old/display.py` as a pure
function (`none` when Python would raise `ZeroDivisionError` on
`duration / steps` with `steps = 0`). -/
def fadeWorkerOld (easing : String) (minB maxB : ℤ) (oracle : ℕ → Bool)
    (start target : ℤ) (steps : ℕ) (_duration : ℚ) : Option OldAcc :=
  if steps = 0 then none
  else if target - start = 0 then some { cur := start, widx := 0, writes := [] }
  else some ((List.range (steps + 1)).foldl
    (fun acc i =>
      let b := oldStep easing steps start target i
      let r := writeStepOld minB maxB acc.cur b (oracle acc.widx)
      { cur := r.1, widx := acc.widx + 1, writes := acc.writes ++ [r.2] })
    { cur := start, widx := 0, writes := [] })

/-! ### Helper lemmas: detector -/

theorem handle_invalid_cd (cfg : DetectionConfig) (s : DetectionState) :
    (handle_invalid_reading cfg s).consecutive_detections = 0 := by
  simp only [handle_invalid_reading]
  split_ifs <;> rfl

theorem transUpdate_cd (cfg : DetectionConfig) (now : ℚ) (s : DetectionState) :
    (transUpdate cfg now s).consecutive_detections = s.consecutive_detections := by
  simp only [transUpdate]
  split_ifs <;> rfl

theorem transUpdate_cnd (cfg : DetectionConfig) (now : ℚ) (s : DetectionState) :
    (transUpdate cfg now s).consecutive_non_detections = s.consecutive_non_detections := by
  simp only [transUpdate]
  split_ifs <;> rfl

theorem counters_exclusive_step (cfg : DetectionConfig) (r? : Option ProximityReading)
    (now : ℚ) (s : DetectionState) :
    (process_reading cfg r? now s).consecutive_detections = 0 ∨
    (process_reading cfg r? now s).consecutive_non_detections = 0 := by
  cases r? with
  | none => exact Or.inl (handle_invalid_cd cfg s)
  | some r =>
    simp only [process_reading]
    split_ifs with hv
    · simp only [process_valid]
      cases hd : is_detection_criteria_met cfg r s with
      | true =>
        right
        simp [hd, transUpdate_cnd, detUpdate]
      | false =>
        left
        simp [hd, transUpdate_cd, detUpdate]
    · exact Or.inl (handle_invalid_cd cfg s)

theorem counters_exclusive_fold (cfg : DetectionConfig)
    (l : List (Option ProximityReading × ℚ)) (s : DetectionState)
    (h : s.consecutive_detections = 0 ∨ s.consecutive_non_detections = 0) :
    (l.foldl (fun s p => process_reading cfg p.1 p.2 s) s).consecutive_detections = 0 ∨
    (l.foldl (fun s p => process_reading cfg p.1 p.2 s) s).consecutive_non_detections = 0 := by
  induction l generalizing s with
  | nil => exact h
  | cons hd tl ih =>
    exact ih _ (counters_exclusive_step cfg hd.1 hd.2 s)

/-- C2: for every finite input sequence (valid, invalid or absent readings),
the reachable detector state never has `consecutive_detections` and
`consecutive_non_detections` simultaneously nonzero. -/
theorem detector_counters_never_both_nonzero (cfg : DetectionConfig)
    (inputs : List (Option ProximityReading × ℚ)) :
    (runDetector cfg inputs).consecutive_detections = 0 ∨
    (runDetector cfg inputs).consecutive_non_detections = 0 :=
  counters_exclusive_fold cfg inputs initDetectionState (Or.inl rfl)

theorem should_trigger_non_iff (cfg : DetectionConfig) (now : ℚ) (s : DetectionState) :
    should_trigger_non_detection cfg now s = true ↔
      (cfg.no_presence_required ≤ s.consecutive_non_detections ∧ dwellOk s now) := by
  simp only [should_trigger_non_detection, dwellOk]
  split_ifs with h1
  · simp
    omega
  · cases hst : s.detection_start_time with
    | none => simp [hst]; omega
    | some t0 => simp [hst]; intro _; omega

theorem transUpdate_present_of_false (cfg : DetectionConfig) (now : ℚ)
    (s : DetectionState) (h : s.human_present = false) :
    ((transUpdate cfg now s).human_present = true ↔
      cfg.consecutive_required ≤ s.consecutive_detections) := by
  simp only [transUpdate, should_trigger_detection]
  split_ifs with h1 h2 <;> simp_all

theorem transUpdate_present_of_true (cfg : DetectionConfig) (now : ℚ)
    (s : DetectionState) (h : s.human_present = true) :
    ((transUpdate cfg now s).human_present = false ↔
      should_trigger_non_detection cfg now s = true) := by
  simp only [transUpdate]
  split_ifs with h1 h2 <;> simp_all

theorem detUpdate_present (now : ℚ) (s : DetectionState) (d : Bool) :
    (detUpdate now s d).human_present = s.human_present := by
  simp only [detUpdate]
  split_ifs <;> rfl

theorem detUpdate_start_of_present (now : ℚ) (s : DetectionState) (d : Bool)
    (h : s.human_present = true) :
    (detUpdate now s d).detection_start_time = s.detection_start_time := by
  simp only [detUpdate]
  split_ifs with h1 <;> simp_all

theorem dwellOk_congr (s1 s2 : DetectionState) (now : ℚ)
    (h : s1.detection_start_time = s2.detection_start_time) :
    (dwellOk s1 now ↔ dwellOk s2 now) := by
  simp only [dwellOk, h]

/-- C1: processing a valid reading, presence flips from false to true exactly
when the updated `consecutive_detections` reaches `consecutive_required`, and
from true to false exactly when the updated `consecutive_non_detections`
reaches `no_presence_required` and at least 2.0 seconds have elapsed since
`detection_start_time`; when `detection_start_time` was never set the dwell
guard is skipped (`dwellOk` is then trivially true). -/
theorem presence_transition_characterization (cfg : DetectionConfig)
    (s : DetectionState) (r : ProximityReading) (now : ℚ) (hv : r.valid = true) :
    (s.human_present = false →
      ((process_reading cfg (some r) now s).human_present = true ↔
        cfg.consecutive_required ≤
          (process_reading cfg (some r) now s).consecutive_detections)) ∧
    (s.human_present = true →
      ((process_reading cfg (some r) now s).human_present = false ↔
        (cfg.no_presence_required ≤
            (process_reading cfg (some r) now s).consecutive_non_detections ∧
         dwellOk s now))) := by
  simp only [process_reading, hv, if_pos, process_valid]
  constructor
  · intro hp
    rw [transUpdate_cd, transUpdate_present_of_false]
    rw [detUpdate_present]
    exact hp
  · intro hp
    have hp1 : ({ s with detection_history := addDetection s.detection_history (is_detection_criteria_met cfg r s) } : DetectionState).human_present = true := hp
    have hst := detUpdate_start_of_present now _ (is_detection_criteria_met cfg r s) hp1
    rw [transUpdate_cnd, transUpdate_present_of_true, should_trigger_non_iff]
    · rw [dwellOk_congr _ s now (by rw [hst])]
    · rw [detUpdate_present]
      exact hp

/-- Witness for C1 at the default configuration, the initial state and the
valid reading 300mm / 8 zones. -/
theorem presence_transition_characterization_witness :
    (initDetectionState.human_present = false →
      ((process_reading defaultDetCfg (some ⟨300, 8, true⟩) 0 initDetectionState).human_present = true ↔
        defaultDetCfg.consecutive_required ≤
          (process_reading defaultDetCfg (some ⟨300, 8, true⟩) 0 initDetectionState).consecutive_detections)) ∧
    (initDetectionState.human_present = true →
      ((process_reading defaultDetCfg (some ⟨300, 8, true⟩) 0 initDetectionState).human_present = false ↔
        (defaultDetCfg.no_presence_required ≤
            (process_reading defaultDetCfg (some ⟨300, 8, true⟩) 0 initDetectionState).consecutive_non_detections ∧
         dwellOk initDetectionState 0))) :=
  presence_transition_characterization defaultDetCfg initDetectionState ⟨300, 8, true⟩ 0 rfl

/-- The spec scenario readings `[2000/0, 1500/1, 800/3, 400/6, 350/7, 300/8]`,
all valid, at times 0..5. -/
def scenarioInputs : List (Option ProximityReading × ℚ) :=
  [(some ⟨2000, 0, true⟩, 0), (some ⟨1500, 1, true⟩, 1), (some ⟨800, 3, true⟩, 2),
   (some ⟨400, 6, true⟩, 3), (some ⟨350, 7, true⟩, 4), (some ⟨300, 8, true⟩, 5)]

/-- C3 counterexample: with `threshold_mm = 400, detection_zones = 6,
consecutive_required = 3`, processing the scenario readings does NOT make
`human_present` true at the 6th reading — reading 4 (400mm after 800mm) is
rejected by the movement-plausibility check (`|400 - 800| = 400 > 300`), so
presence is still false after all six readings. -/
theorem scenario_presence_not_true_at_sixth :
    (runDetector defaultDetCfg scenarioInputs).human_present = false := by
  decide

/-- C3 amended: in the scenario only readings 5 and 6 qualify (reading 4 is
rejected by the movement check), so after the six readings
`consecutive_detections = 2 < 3` and presence is still false; a seventh
qualifying reading (310mm / 8 zones) then makes presence true. -/
theorem scenario_presence_needs_seventh_reading :
    (runDetector defaultDetCfg scenarioInputs).human_present = false ∧
    (runDetector defaultDetCfg scenarioInputs).consecutive_detections = 2 ∧
    (runDetector defaultDetCfg
      (scenarioInputs ++ [(some ⟨310, 8, true⟩, 6)])).human_present = true := by
  decide

/-- A detector state with presence established, nine consecutive
non-detections and a stored valid distance of 1000mm. -/
def jumpState : DetectionState :=
  { human_present := true
    consecutive_detections := 0
    consecutive_non_detections := 9
    last_detection_time := 0
    detection_history := []
    last_valid_distance := some 1000
    detection_start_time := none }

/-- C4 counterexample: a valid reading at 2000mm differs from the stored
distance 1000mm by more than 300mm, yet processing it flips
`human_present` from true to false (it is counted as a non-detection and
completes the `no_presence_required = 10` window), so such a reading CAN by
itself trigger a presence transition. -/
theorem jump_reading_triggers_transition :
    (300 < |(2000 : ℤ) - 1000|) ∧
    jumpState.human_present = true ∧
    jumpState.last_valid_distance = some 1000 ∧
    (process_reading defaultDetCfg (some ⟨2000, 0, true⟩) 100 jumpState).human_present = false := by
  decide

/-- C4 amended: a valid reading whose distance differs from the stored valid
distance by more than 300mm is forced to a non-detection verdict by the
movement-plausibility check, so (provided `consecutive_required ≥ 1`) it can
never raise presence from false to true; it can, however, serve as the final
non-detection that clears presence (see the counterexample). -/
theorem jump_reading_never_raises_presence (cfg : DetectionConfig)
    (s : DetectionState) (r : ProximityReading) (now : ℚ) (p : ℤ)
    (hv : r.valid = true) (hp : s.last_valid_distance = some p)
    (hd : 300 < |r.distance_mm - p|) (hnp : s.human_present = false)
    (hreq : 1 ≤ cfg.consecutive_required) :
    (process_reading cfg (some r) now s).human_present = false := by
  have hmov : validate_movement cfg r s = false := by
    simp only [validate_movement, hp]
    rw [if_pos hd]
  have hdet : is_detection_criteria_met cfg r s = false := by
    simp [is_detection_criteria_met, hmov]
  simp only [process_reading, hv, if_pos, process_valid, hdet]
  have h2 : (detUpdate now ({ s with detection_history := addDetection s.detection_history false } : DetectionState) false).human_present = false := by
    rw [detUpdate_present]
    exact hnp
  rw [Bool.eq_false_iff]
  intro hcontra
  have := (transUpdate_present_of_false cfg now _ h2).mp hcontra
  simp [detUpdate] at this
  omega

/-- Witness for the amended C4: from the initial (absent) state with stored
distance 1000mm, a valid 2000mm reading (jump of 1000mm) leaves presence false. -/
theorem jump_reading_never_raises_presence_witness :
    (process_reading defaultDetCfg (some ⟨2000, 0, true⟩) 0
      { initDetectionState with last_valid_distance := some 1000 }).human_present = false :=
  jump_reading_never_raises_presence defaultDetCfg
    { initDetectionState with last_valid_distance := some 1000 }
    ⟨2000, 0, true⟩ 0 1000 rfl rfl (by decide) rfl (by decide)

/-! ### Helper lemmas: truncation -/

theorem floor_le_qtrunc (q : ℚ) : ⌊q⌋ ≤ qtrunc q := by
  unfold qtrunc
  split_ifs with h
  · exact le_refl _
  · exact Int.floor_le_ceil q

theorem qtrunc_le_ceil (q : ℚ) : qtrunc q ≤ ⌈q⌉ := by
  unfold qtrunc
  split_ifs with h
  · exact Int.floor_le_ceil q
  · exact le_refl _

theorem qtrunc_mono {a b : ℚ} (h : a ≤ b) : qtrunc a ≤ qtrunc b := by
  unfold qtrunc
  split_ifs with ha hb
  · exact Int.floor_le_floor h
  · exact absurd (le_trans ha h) hb
  · calc ⌈a⌉ ≤ 0 := Int.ceil_le.mpr (by push_cast; linarith [not_le.mp ha])
      _ ≤ ⌊b⌋ := Int.floor_nonneg.mpr (by assumption)
  · exact Int.ceil_le_ceil h

theorem intCast_le_qtrunc {n : ℤ} {q : ℚ} (h : (n : ℚ) ≤ q) : n ≤ qtrunc q :=
  le_trans (Int.le_floor.mpr h) (floor_le_qtrunc q)

theorem qtrunc_le_intCast {n : ℤ} {q : ℚ} (h : q ≤ (n : ℚ)) : qtrunc q ≤ n :=
  le_trans (qtrunc_le_ceil q) (Int.ceil_le.mpr h)

/-- Monotonicity of the pre-clamp branch structure of
`calculate_adaptive_brightness`. -/
theorem cab_inner_mono (cfg : LightConfig) (maxB : ℤ) (l1 l2 : ℚ)
    (hlh : cfg.light_threshold_low < cfg.light_threshold_high)
    (hmm : cfg.min_brightness ≤ maxB) (h12 : l1 ≤ l2) :
    (if l1 ≤ cfg.light_threshold_low then cfg.min_brightness
     else if cfg.light_threshold_high ≤ l1 then maxB
     else qtrunc ((cfg.min_brightness : ℚ) +
       (l1 - cfg.light_threshold_low) /
         (cfg.light_threshold_high - cfg.light_threshold_low) *
         ((maxB : ℚ) - (cfg.min_brightness : ℚ)))) ≤
    (if l2 ≤ cfg.light_threshold_low then cfg.min_brightness
     else if cfg.light_threshold_high ≤ l2 then maxB
     else qtrunc ((cfg.min_brightness : ℚ) +
       (l2 - cfg.light_threshold_low) /
         (cfg.light_threshold_high - cfg.light_threshold_low) *
         ((maxB : ℚ) - (cfg.min_brightness : ℚ)))) := by
  set low := cfg.light_threshold_low
  set high := cfg.light_threshold_high
  set mb := cfg.min_brightness
  have hk : (0 : ℚ) ≤ (maxB : ℚ) - (mb : ℚ) := by
    rw [sub_nonneg]
    exact_mod_cast hmm
  have hden : (0 : ℚ) < high - low := by linarith
  have hlow : ∀ l : ℚ, ¬ l ≤ low → ¬ high ≤ l →
      (mb : ℚ) ≤ (mb : ℚ) + (l - low) / (high - low) * ((maxB : ℚ) - (mb : ℚ)) := by
    intro l h1 h2
    have : 0 ≤ (l - low) / (high - low) :=
      div_nonneg (by linarith [not_le.mp h1]) (le_of_lt hden)
    nlinarith
  have hhigh : ∀ l : ℚ, ¬ l ≤ low → ¬ high ≤ l →
      (mb : ℚ) + (l - low) / (high - low) * ((maxB : ℚ) - (mb : ℚ)) ≤ (maxB : ℚ) := by
    intro l h1 h2
    have hr1 : (l - low) / (high - low) ≤ 1 := by
      rw [div_le_one hden]
      linarith [not_le.mp h2]
    nlinarith
  split_ifs
  all_goals first
    | exact le_refl _
    | exact hmm
    | exact intCast_le_qtrunc (hlow _ (by assumption) (by assumption))
    | exact qtrunc_le_intCast (hhigh _ (by assumption) (by assumption))
    | (exfalso; linarith)
    | (apply qtrunc_mono; gcongr)

/-- C5: with `low_threshold < high_threshold` and
`min_brightness ≤ max_brightness`, `calculate_adaptive_brightness` is
monotonically non-decreasing in lux and always returns a value within
`[min_brightness, max_brightness]`. -/
theorem brightness_map_monotone_bounded (cfg : LightConfig) (maxB : ℤ)
    (l1 l2 lux : ℚ)
    (hlh : cfg.light_threshold_low < cfg.light_threshold_high)
    (hmm : cfg.min_brightness ≤ maxB) (h12 : l1 ≤ l2) :
    calculate_adaptive_brightness cfg l1 maxB ≤
      calculate_adaptive_brightness cfg l2 maxB ∧
    cfg.min_brightness ≤ calculate_adaptive_brightness cfg lux maxB ∧
    calculate_adaptive_brightness cfg lux maxB ≤ maxB := by
  unfold calculate_adaptive_brightness
  by_cases he : cfg.adaptive_brightness_enabled = false
  · simp only [he, if_true, if_pos]
    exact ⟨le_refl _, hmm, le_refl _⟩
  · simp only [he, if_false, if_neg, not_false_iff]
    refine ⟨?_, le_max_left _ _, max_le hmm (min_le_right _ _)⟩
    have h := cab_inner_mono cfg maxB l1 l2 hlh hmm h12
    exact max_le_max (le_refl _) (min_le_min h (le_refl _))

/-- Witness for C5 at the default configuration, lux values 100 and 250,
`max_brightness = 255`. -/
theorem brightness_map_monotone_bounded_witness :
    calculate_adaptive_brightness defaultLightCfg 100 255 ≤
      calculate_adaptive_brightness defaultLightCfg 250 255 ∧
    defaultLightCfg.min_brightness ≤
      calculate_adaptive_brightness defaultLightCfg 250 255 ∧
    calculate_adaptive_brightness defaultLightCfg 250 255 ≤ 255 :=
  brightness_map_monotone_bounded defaultLightCfg 255 100 250 250
    (by norm_num [defaultLightCfg]) (by norm_num [defaultLightCfg]) (by norm_num)

/-- C9 counterexample: at `lux = 250` with `max = 255, min = 0, low = 10,
high = 500` the mapping returns 124, which is not within rounding distance
of the claimed ≈130 (the interpolation formula itself yields
`6120/49 ≈ 124.9`). -/
theorem brightness_map_at_250_not_130 :
    calculate_adaptive_brightness defaultLightCfg 250 255 = 124 ∧
    1 < |(130 : ℤ) - calculate_adaptive_brightness defaultLightCfg 250 255| := by
  have h : calculate_adaptive_brightness defaultLightCfg 250 255 = 124 := by
    norm_num [calculate_adaptive_brightness, defaultLightCfg, qtrunc]
  rw [h]
  norm_num

/-- C9 amended: the linear interpolation
`min + (lux - low) / (high - low) * (max - min)` at these parameters is
exactly `6120/49 ≈ 124.9`, and the function truncates it to 124. -/
theorem brightness_map_at_250_is_124 :
    calculate_adaptive_brightness defaultLightCfg 250 255 = 124 ∧
    (0 : ℚ) + (250 - 10) / (500 - 10) * (255 - 0) = 6120 / 49 ∧
    qtrunc (6120 / 49) = 124 := by
  refine ⟨?_, by norm_num, ?_⟩
  · norm_num [calculate_adaptive_brightness, defaultLightCfg, qtrunc]
  · norm_num [qtrunc]

/-! ### Helper lemmas: easing functions -/

theorem easeScript_zero (e : String) : easeScript e 0 = 0 := by
  unfold easeScript
  split_ifs <;> norm_num at *

theorem easeScript_one (e : String) : easeScript e 1 = 1 := by
  unfold easeScript
  split_ifs <;> norm_num at *

theorem easeOld_zero (e : String) : easeOld e 0 = 0 := by
  unfold easeOld
  split_ifs <;> norm_num at *

theorem easeOld_one (e : String) : easeOld e 1 = 1 := by
  unfold easeOld
  split_ifs <;> norm_num at *

theorem easeScript_mem (e : String) (t : ℚ) (h0 : 0 ≤ t) (h1 : t ≤ 1) :
    0 ≤ easeScript e t ∧ easeScript e t ≤ 1 := by
  have q5a : t < 1/2 → 0 ≤ 16 * t^5 ∧ 16 * t^5 ≤ 1 := by
    intro ht
    have h5 : t^5 ≤ (1/2)^5 := pow_le_pow_left₀ h0 (le_of_lt ht) 5
    have h5n : 0 ≤ t^5 := pow_nonneg h0 5
    constructor <;> nlinarith
  have q5b : ¬ t < 1/2 → 0 ≤ 1 - (-2*t + 2)^5/2 ∧ 1 - (-2*t + 2)^5/2 ≤ 1 := by
    intro ht
    have hu0 : (0:ℚ) ≤ (-2*t + 2)^5 := pow_nonneg (by linarith) 5
    have hu1 : ((-2*t + 2) : ℚ)^5 ≤ 1 := pow_le_one₀ (by linarith) (by linarith)
    constructor <;> linarith
  have q3a : t < 1/2 → 0 ≤ 4 * t^3 ∧ 4 * t^3 ≤ 1 := by
    intro ht
    have h3 : t^3 ≤ (1/2)^3 := pow_le_pow_left₀ h0 (le_of_lt ht) 3
    have h3n : 0 ≤ t^3 := pow_nonneg h0 3
    constructor <;> nlinarith
  have q3b : ¬ t < 1/2 → 0 ≤ 1 - (-2*t + 2)^3/2 ∧ 1 - (-2*t + 2)^3/2 ≤ 1 := by
    intro ht
    have hu0 : (0:ℚ) ≤ (-2*t + 2)^3 := pow_nonneg (by linarith) 3
    have hu1 : ((-2*t + 2) : ℚ)^3 ≤ 1 := pow_le_one₀ (by linarith) (by linarith)
    constructor <;> linarith
  unfold easeScript
  split_ifs
  all_goals first
    | exact q5a (by assumption)
    | exact q5b (by assumption)
    | exact q3a (by assumption)
    | exact q3b (by assumption)
    | exact ⟨h0, h1⟩

theorem easeOld_mem (e : String) (t : ℚ) (h0 : 0 ≤ t) (h1 : t ≤ 1) :
    0 ≤ easeOld e t ∧ easeOld e t ≤ 1 := by
  have hs : (0:ℚ) ≤ 1 - t := by linarith
  have c1 : 0 ≤ t * t * (3 - 2*t) :=
    mul_nonneg (mul_nonneg h0 h0) (by linarith)
  have c2 : t * t * (3 - 2*t) ≤ 1 := by
    nlinarith [mul_nonneg (mul_nonneg hs hs) (show (0:ℚ) ≤ 2*t + 1 by linarith)]
  have d1 : 0 ≤ t * t * t * (t * (t * 6 - 15) + 10) := by
    nlinarith [mul_nonneg (mul_nonneg (mul_nonneg h0 h0) h0) (sq_nonneg (4*t - 5)),
      mul_nonneg (mul_nonneg h0 h0) h0]
  have d2 : t * t * t * (t * (t * 6 - 15) + 10) ≤ 1 := by
    nlinarith [mul_nonneg (mul_nonneg (mul_nonneg hs hs) hs)
      (show (0:ℚ) ≤ 6*t^2 + 3*t + 1 by nlinarith [sq_nonneg t])]
  unfold easeOld
  split_ifs
  all_goals first
    | exact ⟨h0, h1⟩
    | exact ⟨c1, c2⟩
    | exact ⟨d1, d2⟩

theorem lerp_between {x s tg : ℚ} (h0 : 0 ≤ x) (h1 : x ≤ 1) :
    min s tg ≤ s + (tg - s) * x ∧ s + (tg - s) * x ≤ max s tg := by
  rcases le_total s tg with h | h
  · rw [min_eq_left h, max_eq_right h]
    constructor <;> nlinarith
  · rw [min_eq_right h, max_eq_left h]
    constructor <;> nlinarith

/-- C10: every easing function offered (for any `fade_easing` string,
including the fallbacks) maps 0 to 0 and 1 to 1 and maps `[0,1]` into
`[0,1]`, in both the `_apply_easing` variant of `src/_old/display.py` and
the `fade_to` variant of `proximity_display_control.py`; consequently every
intermediate fade value `start + (target - start) * ease(t)` lies weakly
between the start and the target. -/
theorem easing_functions_well_behaved (e : String) (t s tg : ℚ)
    (h0 : 0 ≤ t) (h1 : t ≤ 1) :
    easeOld e 0 = 0 ∧ easeOld e 1 = 1 ∧
    easeScript e 0 = 0 ∧ easeScript e 1 = 1 ∧
    (0 ≤ easeOld e t ∧ easeOld e t ≤ 1) ∧
    (0 ≤ easeScript e t ∧ easeScript e t ≤ 1) ∧
    (min s tg ≤ s + (tg - s) * easeOld e t ∧
      s + (tg - s) * easeOld e t ≤ max s tg) ∧
    (min s tg ≤ s + (tg - s) * easeScript e t ∧
      s + (tg - s) * easeScript e t ≤ max s tg) := by
  obtain ⟨ho1, ho2⟩ := easeOld_mem e t h0 h1
  obtain ⟨hs1, hs2⟩ := easeScript_mem e t h0 h1
  exact ⟨easeOld_zero e, easeOld_one e, easeScript_zero e, easeScript_one e,
    ⟨ho1, ho2⟩, ⟨hs1, hs2⟩, lerp_between ho1 ho2, lerp_between hs1 hs2⟩

/-- Witness for C10: the quintic easing at `t = 1/3` with a fade from 0 to 255. -/
theorem easing_functions_well_behaved_witness :
    easeOld "quintic" 0 = 0 ∧ easeOld "quintic" 1 = 1 ∧
    easeScript "quintic" 0 = 0 ∧ easeScript "quintic" 1 = 1 ∧
    (0 ≤ easeOld "quintic" (1/3) ∧ easeOld "quintic" (1/3) ≤ 1) ∧
    (0 ≤ easeScript "quintic" (1/3) ∧ easeScript "quintic" (1/3) ≤ 1) ∧
    (min (0:ℚ) 255 ≤ 0 + (255 - 0) * easeOld "quintic" (1/3) ∧
      0 + (255 - 0) * easeOld "quintic" (1/3) ≤ max (0:ℚ) 255) ∧
    (min (0:ℚ) 255 ≤ 0 + (255 - 0) * easeScript "quintic" (1/3) ∧
      0 + (255 - 0) * easeScript "quintic" (1/3) ≤ max (0:ℚ) 255) :=
  easing_functions_well_behaved "quintic" (1/3) 0 255 (by norm_num) (by norm_num)

/-! ### Helper lemmas: fade engine -/

theorem pyRound_intCast (n : ℤ) : pyRound (n : ℚ) = n := by
  unfold pyRound
  rw [Int.floor_intCast, sub_self]
  rw [if_neg (by norm_num)]
  exact round_intCast n

theorem fadeIter_inv (easing : String) (maxB steps start target : ℤ)
    (hc : clamp0 maxB target = target) (l : List ℕ) (acc : FadeAcc)
    (h : acc.lastB = target → acc.cur = target) :
    ((l.foldl (fadeIter (fun _ => true) easing maxB steps start target) acc).lastB = target →
     (l.foldl (fadeIter (fun _ => true) easing maxB steps start target) acc).cur = target) := by
  induction l generalizing acc with
  | nil => exact h
  | cons i tl ih =>
    simp only [List.foldl_cons]
    apply ih
    simp only [fadeIter]
    split_ifs with hb
    · exact h
    · intro hl
      simp only at hl ⊢
      rw [hl, hc]

theorem fadeStep_last (easing : String) (steps start target : ℤ) (hs : 1 ≤ steps) :
    fadeStep easing steps start target steps.toNat = target := by
  unfold fadeStep
  have h1 : ((steps.toNat : ℚ)) = ((steps : ℤ) : ℚ) := by
    exact_mod_cast congrArg (fun z : ℤ => (z : ℚ))
      (Int.toNat_of_nonneg (show (0:ℤ) ≤ steps by omega))
  rw [h1, div_self (Int.cast_ne_zero.mpr (by omega)), easeScript_one]
  have h2 : ((start : ℚ)) + ((target : ℚ) - (start : ℚ)) * 1 = ((target : ℤ) : ℚ) := by ring
  rw [h2, pyRound_intCast]

theorem recalcSteps_pos (duration : ℚ) (steps0 : ℤ) (hd : 0 < duration)
    (h0 : ¬ steps0 = 0) (hne : ¬ recalcSteps duration steps0 = 0) :
    1 ≤ recalcSteps duration steps0 := by
  unfold recalcSteps at hne ⊢
  split_ifs at hne ⊢ with h
  · have hq : 0 ≤ qtrunc (duration * 600) := by
      unfold qtrunc
      rw [if_pos (by positivity)]
      exact Int.floor_nonneg.mpr (by positivity)
    omega
  · by_contra hlt
    push_neg at hlt
    have hneg : steps0 < 0 := by omega
    have hdiv : duration / (steps0 : ℚ) < 0 :=
      div_neg_of_pos_of_neg hd (by exact_mod_cast hneg)
    rw [not_lt] at h
    linarith

/-- C6 counterexample: with the default configuration (quintic easing,
600 steps), target 100 within `[0, 255]`, and every write succeeding, a fade
of duration -1s completes (is not cancelled and raises no error) with
`current_brightness = 0 ≠ 100`: the step-count recalculation makes the loop
body run zero times, so the final step never writes the target. -/
theorem fade_negative_duration_misses_target :
    fadeTo "quintic" 600 (fun _ => true) 255 0 100 (-1) none = some (0, []) ∧
    (0 : ℤ) ≠ 100 := by
  constructor
  · have h : (⌈(-600:ℚ)⌉ : ℤ) = -600 := by
      have h0 : ((-600:ℚ)) = ((-600:ℤ):ℚ) := by norm_num
      rw [h0, Int.ceil_intCast]
    have h1 : (-599 : ℤ).toNat = 0 := rfl
    norm_num [fadeTo, fadeLoop, clamp0, recalcSteps, qtrunc, h, h1]
  · norm_num

/-- C6 amended: for every fade invocation with a target in
`[0, max_brightness]`, any step count, any POSITIVE duration and any easing
string, if every brightness write succeeds and `fade_to` completes without a
`ZeroDivisionError` (returns `some`), the final tracked brightness equals the
target exactly — the final loop iteration evaluates the easing at `t = 1` and
writes exactly the target, regardless of rounding drift in earlier steps. -/
theorem fade_completes_at_target (easing : String)
    (cfgSteps maxB current0 target0 c : ℤ) (tr : List ℤ) (duration : ℚ)
    (stepsArg : Option ℤ) (h0 : 0 ≤ target0) (h1 : target0 ≤ maxB)
    (hd : 0 < duration)
    (hres : fadeTo easing cfgSteps (fun _ => true) maxB current0 target0 duration
      stepsArg = some (c, tr)) :
    c = target0 := by
  have hc : clamp0 maxB target0 = target0 := by
    unfold clamp0
    rw [min_eq_left h1, max_eq_right h0]
  unfold fadeTo at hres
  rw [hc] at hres
  by_cases he : current0 = target0
  · rw [if_pos he] at hres
    simp only [Option.some_inj, Prod.mk.injEq] at hres
    rw [← hres.1, he]
  · rw [if_neg he] at hres
    by_cases hz1 : stepsArg.getD cfgSteps = 0
    · rw [if_pos hz1] at hres
      simp at hres
    · rw [if_neg hz1] at hres
      by_cases hz2 : recalcSteps duration (stepsArg.getD cfgSteps) = 0
      · rw [if_pos hz2] at hres
        simp at hres
      · rw [if_neg hz2] at hres
        have hn1 : 1 ≤ recalcSteps duration (stepsArg.getD cfgSteps) :=
          recalcSteps_pos duration _ hd hz1 hz2
        simp only [Option.some_inj, Prod.mk.injEq] at hres
        rw [← hres.1]
        unfold fadeLoop
        set n := recalcSteps duration (stepsArg.getD cfgSteps) with hn
        have htn : (n + 1).toNat = n.toNat + 1 := by omega
        rw [htn, List.range_succ, List.foldl_append, List.foldl_cons, List.foldl_nil]
        have hb : fadeStep easing n current0 target0 n.toNat = target0 :=
          fadeStep_last easing n current0 target0 hn1
        have hinv := fadeIter_inv easing maxB n current0 target0 hc (List.range n.toNat)
          { cur := current0, lastB := current0, widx := 0, writes := [] }
          (fun hcontra => absurd hcontra he)
        simp only [fadeIter, hb]
        split_ifs with hlb
        · exact hinv hlb.symm
        · simp [hc]

/-- Witness for the amended C6: a 1s linear fade from 0 to 10 in one step
completes at exactly 10. -/
theorem fade_completes_at_target_witness :
    (0:ℤ) ≤ 10 ∧ (10:ℤ) ≤ 255 ∧ (0:ℚ) < 1 ∧
    fadeTo "linear" 600 (fun _ => true) 255 0 10 1 (some 1) = some (10, [10]) ∧
    (10:ℤ) = 10 := by
  have heval : fadeTo "linear" 600 (fun _ => true) 255 0 10 1 (some 1) =
      some (10, [10]) := by
    have h2 : (2:ℤ).toNat = 2 := rfl
    norm_num [fadeTo, fadeLoop, clamp0, recalcSteps, fadeIter, fadeStep,
      easeScript, pyRound, List.range_succ, round_eq, h2]
  exact ⟨by norm_num, by norm_num, by norm_num, heval,
    fade_completes_at_target "linear" 600 255 0 10 10 [10] 1 (some 1)
      (by norm_num) (by norm_num) (by norm_num) heval⟩

/-- C7 counterexample: in `src/_old/display.py`, a one-step fade from 0 to
target 300 with `min_brightness = 0, max_brightness = 255` and every write
succeeding ends with `current_brightness = 300` while the value actually
written on the final step is the clamped 255: after a successful write the
tracked brightness is advanced to the UNCLAMPED step value, so it does not
always equal the value written to the channel. -/
theorem old_fade_current_diverges_from_written :
    fadeWorkerOld "linear" 0 255 (fun _ => true) 0 300 1 1 =
      some { cur := 300, widx := 2, writes := [0, 255] } ∧
    (300 : ℤ) ≠ 255 := by
  constructor
  · norm_num [fadeWorkerOld, oldStep, writeStepOld, easeOld, qtrunc, List.range_succ]
  · norm_num

/-- C7 amended: at every fade step of `src/_old/display.py`, a failed write
leaves `current_brightness` unchanged, and a successful write advances
`current_brightness` to the proposed step value, which equals the value
actually written to the channel whenever that value lies within
`[min_brightness, max_brightness]` (the written value itself is always the
clamp of the proposed value). -/
theorem write_step_tracks_successful_writes (minB maxB cur b : ℤ) :
    (writeStepOld minB maxB cur b false).1 = cur ∧
    (writeStepOld minB maxB cur b true).1 = b ∧
    (minB ≤ b → b ≤ maxB → (writeStepOld minB maxB cur b true).2 = b) := by
  refine ⟨rfl, rfl, fun hl hr => ?_⟩
  simp only [writeStepOld]
  rw [min_eq_right hr, max_eq_right hl]

/-- Witness for the amended C7 at `min = 0, max = 255, current = 5`,
proposed step value 100. -/
theorem write_step_tracks_successful_writes_witness :
    (writeStepOld 0 255 5 100 false).1 = 5 ∧
    (writeStepOld 0 255 5 100 true).1 = 100 ∧
    (writeStepOld 0 255 5 100 true).2 = 100 := by
  have h := write_step_tracks_successful_writes 0 255 5 100
  exact ⟨h.1, h.2.1, h.2.2 (by norm_num) (by norm_num)⟩
